import Mathlib

/-!
Verification development for the Bengaluru commute bot (`main.py`).

The program answers one "Origin to Destination" chat message with a caption
combining a cab/auto fare estimate (from a driving-directions result) and,
when applicable, a nearest-station metro itinerary, plus a deep link built
with percent-encoding.

Shallow-embedding conventions used throughout:

* Python floats are modelled as `ℚ`; Python ints as `ℤ`/`ℕ`.
* A function that can raise a Python exception is modelled with
  `Except Unit α`; `.error ()` stands for the raised exception
  (IndexError / ValueError / StopIteration / KeyError), which the
  `__main__` block's catch-all turns into the generic apology message.
* The haversine helper inside `get_metro_options` computes floating-point
  trigonometry (sin/cos/atan2/sqrt); it is not shallowly embeddable, so the
  station-distance function is carried as an explicit parameter
  `hav : ℚ → ℚ → ℚ → ℚ → ℚ` mirroring its 4-argument call shape
  `haversine(lat1, lon1, lat2, lon2)`.  All routing logic downstream of the
  distance keys is embedded exactly.
* Python's `str.split`, `str.replace` (replace-all, non-overlapping,
  left-to-right) and `float()` on plain decimal literals are embedded over
  `List Char`; the split/replace scanners use a fuel argument that is always
  sufficient (one unit per consumed character) so that they stay structurally
  recursive and kernel-executable.
* `quote_plus`/percent-decoding work on byte sequences (`List ℕ`, each
  element < 256), matching the fact that Python percent-encodes the UTF-8
  bytes of the text.
* Message transport (Telegram send/delete/photo) and the static-map URL are
  I/O plumbing outside the verified core; the main block is modelled as a
  pure function returning which terminal outcome occurs and which caption
  would be delivered.
-/

set_option maxHeartbeats 1000000
set_option maxRecDepth 4000

/-- A metro station record as read from `metro_data.json`:
`{id, name, line, lat, lon}`. -/
structure Station where
  id : ℤ
  name : String
  line : String
  lat : ℚ
  lon : ℚ
deriving DecidableEq, Repr

/-- The station registry `metro_data`: the `stations` array and the
designated `interchange` station name. -/
structure Registry where
  stations : List Station
  interchange : String
deriving DecidableEq, Repr

/-- A coordinate pair as returned by the directions provider
(`start_location` / `end_location`). -/
structure Coord where
  lat : ℚ
  lng : ℚ
deriving DecidableEq, Repr

/-- Registry loading (lines 14-18 of `main.py`): `json.load` guarded only by
`except FileNotFoundError: metro_data = None`.  `none` models the missing
file; no validation whatsoever (in particular no interchange-name check)
is performed on a successfully parsed registry. -/
def loadRegistry (file : Option Registry) : Option Registry := file

/-- Python's `min(iterable, key=f)` fold: keeps the current best and replaces
it only on a strictly smaller key, so the first minimum wins. -/
def pyMin (f : Station → ℚ) (best : Station) : List Station → Station
  | [] => best
  | s :: rest => pyMin f (if f s < f best then s else best) rest

/-- `min(stations, key=...)` on a possibly-empty list: Python raises
`ValueError` on an empty iterable, modelled by `none`. -/
def nearestStation (f : Station → ℚ) : List Station → Option Station
  | [] => none
  | s :: rest => some (pyMin f s rest)

/-- Metro fare from the stop count (line 93):
`fare = min(10 + (num_stations - 1) * 5, 60)`. -/
def metroFare (n : ℤ) : ℤ := min (10 + (n - 1) * 5) 60

/-- Metro time estimate from the stop count (line 94):
`time = num_stations * 3 + 15`. -/
def metroTime (n : ℤ) : ℤ := n * 3 + 15

/-- Routing-mode selection of `get_metro_options` (lines 86-92): direct when
the lines match or either line is `"Both"`, otherwise via the interchange
station looked up by name with `next(...)` (whose `StopIteration` on a
missing name is modelled by `.error ()`).  Returns the stop count and the
route description string. -/
def routePlan (stations : List Station) (interchange : String)
    (start_station end_station : Station) : Except Unit (ℤ × String) :=
  if start_station.line == end_station.line || start_station.line == "Both"
      || end_station.line == "Both" then
    .ok (|start_station.id - end_station.id|,
      "from *" ++ start_station.name ++ "* to *" ++ end_station.name ++ "*")
  else
    match stations.find? (fun s => s.name == interchange) with
    | none => .error ()
    | some interchange_station =>
      .ok (|start_station.id - interchange_station.id|
            + |interchange_station.id - end_station.id|,
        "from *" ++ start_station.name ++ "* to *" ++ end_station.name
          ++ "* (via " ++ interchange ++ ")")

/-- The formatted metro block (lines 95-100).  `time` and `fare` are Python
ints, and `f-string` formatting of an int with `:.0f` prints it with no
decimal part, i.e. plain `toString`. -/
def metroMessage (route_desc : String) (time fare : ℤ) : String :=
  "🚇 *Metro Option*\n" ++ "   - *Route:* " ++ route_desc ++ "\n"
    ++ "   - *Est. Time:* ~" ++ toString time ++ " min\n"
    ++ "   - *Est. Fare:* ₹" ++ toString fare ++ "\n"

/-- `get_metro_options(origin_coords, dest_coords)` (lines 69-100), with the
haversine distance abstracted as the parameter `hav` (see module comment).
Returns `.ok ""` for the three "not applicable" early exits, `.ok msg` for a
produced metro block, and `.error ()` for a raised exception (empty station
list, or missing interchange name on a via route). -/
def get_metro_options (hav : ℚ → ℚ → ℚ → ℚ → ℚ) (metro_data : Option Registry)
    (origin_coords dest_coords : Coord) : Except Unit String :=
  match metro_data with
  | none => .ok ""
  | some md =>
    match md.stations with
    | [] => .error ()
    | s0 :: rest =>
      let start_station :=
        pyMin (fun s => hav origin_coords.lat origin_coords.lng s.lat s.lon) s0 rest
      let end_station :=
        pyMin (fun s => hav dest_coords.lat dest_coords.lng s.lat s.lon) s0 rest
      if hav origin_coords.lat origin_coords.lng start_station.lat start_station.lon > 3 then
        .ok ""
      else if start_station.name == end_station.name then
        .ok ""
      else
        match routePlan md.stations md.interchange start_station end_station with
        | .error e => .error e
        | .ok p => .ok (metroMessage p.2 (metroTime p.1) (metroFare p.1))

/-- A driving leg as consumed from the directions result:
`duration.text`, `distance.text`, `start_location`, `end_location`. -/
structure Leg where
  duration_text : String
  distance_text : String
  start_location : Coord
  end_location : Coord
deriving DecidableEq, Repr

/-- One route of the directions result: its `legs` array and its
`overview_polyline.points` string. -/
structure Route where
  legs : List Leg
  overview_polyline : String
deriving DecidableEq, Repr

/-- Scanner behind Python's `str.replace`: replaces non-overlapping
occurrences of `pat` left to right.  The fuel argument (one unit per
consumed input character, always supplied as the input length plus one for
a non-empty `pat`) keeps the recursion structural. -/
def pyReplaceAux (pat rep : List Char) : ℕ → List Char → List Char
  | 0, s => s
  | fuel + 1, s =>
    match s with
    | [] => []
    | c :: rest =>
      if pat.isPrefixOf s then rep ++ pyReplaceAux pat rep fuel (s.drop pat.length)
      else c :: pyReplaceAux pat rep fuel rest

/-- Python's `s.replace(pat, rep)` for a non-empty `pat`:
replaces every non-overlapping occurrence, scanning left to right. -/
def pyReplace (s pat rep : String) : String :=
  String.mk (pyReplaceAux pat.toList rep.toList (s.toList.length + 1) s.toList)

/-- Numeric value of a digit character. -/
def digitVal (c : Char) : ℕ := c.toNat - 48

/-- Value of a digit string read in base 10. -/
def natOfDigits (cs : List Char) : ℕ :=
  cs.foldl (fun a c => a * 10 + digitVal c) 0

/-- Unsigned part of Python's `float()` on a plain decimal literal:
digits with an optional single dot, at least one digit overall.
(Exponents, infinities and surrounding whitespace never occur in the
provider's distance texts and are not modelled.) -/
def parseUnsignedFloat? (cs : List Char) : Option ℚ :=
  let ip := cs.takeWhile Char.isDigit
  let rest := cs.dropWhile Char.isDigit
  match rest with
  | [] => if ip.isEmpty then none else some (natOfDigits ip)
  | c :: frac =>
    if c = '.' ∧ frac.all Char.isDigit ∧ (ip ≠ [] ∨ frac ≠ []) then
      some ((natOfDigits ip : ℚ) + (natOfDigits frac : ℚ) / (10 : ℚ) ^ frac.length)
    else none

/-- Python's `float(s)` on decimal literals: optional sign, then digits with
an optional fractional part; `none` models the raised `ValueError`. -/
def parseFloat? (s : String) : Option ℚ :=
  match s.toList with
  | [] => none
  | c :: cs =>
    if c = '-' then (parseUnsignedFloat? cs).map (fun q => -q)
    else if c = '+' then parseUnsignedFloat? cs
    else parseUnsignedFloat? (c :: cs)

/-- Low end of the auto fare (line 110): `auto_fare = 30 + (dist_km * 15)`. -/
def autoFareLow (dist_km : ℚ) : ℚ := 30 + dist_km * 15

/-- High end of the auto fare as printed on line 116: `auto_fare + 30`. -/
def autoFareHigh (dist_km : ℚ) : ℚ := autoFareLow dist_km + 30

/-- Low end of the cab fare (line 111): `cab_fare = 70 + (dist_km * 20)`. -/
def cabFareLow (dist_km : ℚ) : ℚ := 70 + dist_km * 20

/-- High end of the cab fare as printed on line 117: `cab_fare + 50`. -/
def cabFareHigh (dist_km : ℚ) : ℚ := cabFareLow dist_km + 50

/-- Python's round-half-to-even on a rational, the rounding used by
`f"{x:.0f}"` formatting of a float. -/
def roundHalfEven (q : ℚ) : ℤ :=
  if q - ⌊q⌋ < 1 / 2 then ⌊q⌋
  else if 1 / 2 < q - ⌊q⌋ then ⌊q⌋ + 1
  else if ⌊q⌋ % 2 = 0 then ⌊q⌋ else ⌊q⌋ + 1

/-- `f"{x:.0f}"` on a float: round half to even, print the integer. -/
def fmtF0 (q : ℚ) : String := toString (roundHalfEven q)

/-- The formatted cab/auto block (lines 112-118), parameterized by the
verbatim duration and distance texts and the parsed `dist_km`. -/
def cabMessage (duration distance : String) (dist_km : ℚ) : String :=
  "🚗 *Cab/Auto Estimate*\n" ++ "   - *Travel Time:* " ++ duration ++ "\n"
    ++ "   - *Distance:* " ++ distance ++ "\n"
    ++ "   - *Est. Auto Fare:* ₹" ++ fmtF0 (autoFareLow dist_km)
    ++ " - ₹" ++ fmtF0 (autoFareHigh dist_km) ++ "\n"
    ++ "   - *Est. Cab Fare:* ₹" ++ fmtF0 (cabFareLow dist_km)
    ++ " - ₹" ++ fmtF0 (cabFareHigh dist_km) ++ "\n"

/-- `get_cab_auto_options(directions_result)` (lines 102-118).  An empty
directions list returns the fixed unavailable string (line 105); otherwise
`directions_result[0]['legs'][0]` is read (IndexError on an empty legs
array modelled by `.error ()`), `dist_km` is parsed with
`float(distance.replace(' km', ''))` (ValueError modelled by `.error ()`),
and the formatted block is returned. -/
def get_cab_auto_options (directions_result : List Route) : Except Unit String :=
  match directions_result with
  | [] => .ok "Could not find driving directions."
  | r :: _ =>
    match r.legs with
    | [] => .error ()
    | leg :: _ =>
      match parseFloat? (pyReplace leg.distance_text " km" "") with
      | none => .error ()
      | some dist_km => .ok (cabMessage leg.duration_text leg.distance_text dist_km)

/-- Scanner behind Python's `str.split(sep)` for a non-empty separator:
cuts at each non-overlapping occurrence, scanning left to right.  Fuel as
in `pyReplaceAux`. -/
def pySplitAux (sep : List Char) : ℕ → List Char → List Char → List (List Char)
  | 0, s, acc => [acc.reverse ++ s]
  | fuel + 1, s, acc =>
    match s with
    | [] => [acc.reverse]
    | c :: rest =>
      if sep.isPrefixOf s then
        acc.reverse :: pySplitAux sep fuel (s.drop sep.length) []
      else pySplitAux sep fuel rest (c :: acc)

/-- Python's `msg.split(sep)` for a non-empty separator. -/
def pySplit (sep msg : String) : List String :=
  (pySplitAux sep.toList (msg.toList.length + 1) msg.toList []).map String.mk

/-- One step of Python's `str.title()`: a character following a
non-alphabetic character is uppercased, any other is lowercased
(ASCII approximation of the source's Unicode behaviour). -/
def pyTitleAux : Bool → List Char → List Char
  | _, [] => []
  | prevAlpha, c :: rest =>
    (if prevAlpha then c.toLower else c.toUpper) :: pyTitleAux c.isAlpha rest

/-- Python's `s.title()`. -/
def pyTitle (s : String) : String := String.mk (pyTitleAux false s.toList)

/-- Terminal outcome of one invocation of the `__main__` block (with all
four environment values present): the usage-format instruction (line 171),
the generic apology sent by the catch-all handler (line 174), or the final
composed caption delivered with the photo (line 168). -/
inductive MainResult where
  | usage : MainResult
  | apology : MainResult
  | delivered : String → MainResult
deriving DecidableEq, Repr

/-- The `__main__` workflow (lines 125-174) after the environment check,
as a pure function.  `directions` stands for the external
`gmaps.directions` call (invoked only in the two-part branch); message
transport and the static-map URL are I/O plumbing and do not affect which
caption is composed.  Any exception inside the `try` block (IndexError on
an empty directions result at line 139, ValueError from distance parsing,
StopIteration from the interchange lookup) lands in `.apology`. -/
def mainFlow (msg : String) (directions : String → String → List Route)
    (hav : ℚ → ℚ → ℚ → ℚ → ℚ) (metro_data : Option Registry) : MainResult :=
  let parts := pySplit " to " msg
  if parts.length = 2 then
    let origin_loc := (parts.getD 0 "").trim
    let dest_loc := (parts.getD 1 "").trim
    let directions_result := directions origin_loc dest_loc
    match get_cab_auto_options directions_result with
    | .error _ => .apology
    | .ok cab_info =>
      match directions_result.head? with
      | none => .apology
      | some r0 =>
        match r0.legs.head? with
        | none => .apology
        | some leg0 =>
          let origin_coords := leg0.start_location
          let dest_coords := leg0.end_location
          match get_metro_options hav metro_data origin_coords dest_coords with
          | .error _ => .apology
          | .ok metro_info =>
            .delivered ("📍 *Route: " ++ pyTitle origin_loc ++ " to "
              ++ pyTitle dest_loc ++ "*\n---------------------------------------\n"
              ++ cab_info
              ++ (if metro_info == "" then "" else "\n" ++ metro_info))
  else .usage

/-- ASCII byte values of a string's characters (the URL template and keys
are pure ASCII). -/
def strBytes (s : String) : List ℕ := s.toList.map Char.toNat

/-- The bytes `quote_plus` leaves unescaped: ASCII letters, digits, and
`_ . - ~`. -/
def safeByte (b : ℕ) : Bool :=
  decide ((48 ≤ b ∧ b ≤ 57) ∨ (65 ≤ b ∧ b ≤ 90) ∨ (97 ≤ b ∧ b ≤ 122)
    ∨ b = 45 ∨ b = 46 ∨ b = 95 ∨ b = 126)

/-- Uppercase hexadecimal digit byte for a value below 16. -/
def hexDigit (n : ℕ) : ℕ := if n < 10 then 48 + n else 55 + n

/-- `quote_plus` on one input byte: space (32) becomes `+` (43), safe bytes
pass through, every other byte becomes `%XX` (37 then two uppercase hex
digit bytes). -/
def quotePlusByte (b : ℕ) : List ℕ :=
  if b = 32 then [43]
  else if safeByte b then [b]
  else [37, hexDigit (b / 16), hexDigit (b % 16)]

/-- `urllib.parse.quote_plus` over the UTF-8 bytes of the text. -/
def quotePlus (bs : List ℕ) : List ℕ := bs.flatMap quotePlusByte

/-- Whether a byte is a hexadecimal digit (either case). -/
def isHexB (b : ℕ) : Bool :=
  decide ((48 ≤ b ∧ b ≤ 57) ∨ (65 ≤ b ∧ b ≤ 70) ∨ (97 ≤ b ∧ b ≤ 102))

/-- Value of a hexadecimal digit byte. -/
def hexVal (b : ℕ) : ℕ :=
  if b ≤ 57 then b - 48 else if b ≤ 70 then b - 55 else b - 87

/-- Percent-decoding with `+`-to-space, i.e. `urllib.parse.unquote_plus`
on the byte level: `+` (43) decodes to a space, `%` (37) followed by two
hex digit bytes decodes to that byte, anything else (including a `%` not
followed by two hex digits, which Python keeps literally) passes through. -/
def unquotePlus : List ℕ → List ℕ
  | [] => []
  | b :: rest =>
    if b = 43 then 32 :: unquotePlus rest
    else if b = 37 then
      match h : rest with
      | b1 :: b2 :: rest2 =>
        if isHexB b1 && isHexB b2 then
          (hexVal b1 * 16 + hexVal b2) :: unquotePlus rest2
        else b :: unquotePlus (b1 :: b2 :: rest2)
      | _ => b :: unquotePlus rest
    else b :: unquotePlus rest
termination_by l => l.length
decreasing_by all_goals (simp_all [List.length_cons]; try omega)

/-- Fixed template text before the origin parameter value in the deep link
(line 150). -/
def urlHead : List ℕ := strBytes "https://www.google.com/maps/dir/?api=1&origin="

/-- Separator between the two encoded parameter values in the deep link. -/
def destKey : List ℕ := strBytes "&destination="

/-- The deep-link URL of line 150, over bytes:
`https://www.google.com/maps/dir/?api=1&origin={quote_plus(origin)}&destination={quote_plus(dest)}`. -/
def google_maps_url (origin_text destination_text : List ℕ) : List ℕ :=
  urlHead ++ quotePlus origin_text ++ destKey ++ quotePlus destination_text

/-- The value of the `origin` query parameter of the constructed URL: the
bytes after the fixed head, up to the next `&` (38). -/
def originParam (url : List ℕ) : List ℕ :=
  (url.drop urlHead.length).takeWhile (fun b => b != 38)

/-- The value of the `destination` query parameter of the constructed URL:
the bytes after the `&destination=` key that follows the origin value. -/
def destParam (url : List ℕ) : List ℕ :=
  ((url.drop urlHead.length).dropWhile (fun b => b != 38)).drop destKey.length

deriving instance DecidableEq for Except

/-- Concrete stand-in for the haversine distance used in the scenario
fixtures: the Manhattan distance on raw coordinates.  The routing logic of
`get_metro_options` is independent of the particular distance function. -/
def mdist (lat1 lon1 lat2 lon2 : ℚ) : ℚ := |lat1 - lat2| + |lon1 - lon2|

/-- Fixture registry for the via-interchange scenario: start station id 2
on `Green`, end station id 12 on `Purple`, interchange `X` with id 7. -/
def scenReg : Registry :=
  ⟨[⟨2, "S", "Green", 0, 0⟩, ⟨12, "E", "Purple", 10, 0⟩,
    ⟨7, "X", "Both", 5, 0⟩], "X"⟩

/-- Fixture registry with two same-line stations, used to exhibit that the
destination's distance to its nearest station is never checked. -/
def regFar : Registry :=
  ⟨[⟨1, "A", "L1", 0, 0⟩, ⟨3, "B", "L1", 10, 0⟩], "A"⟩

/-- Fixture registry whose `interchange` name `Zed` does not occur among
its stations, and whose two stations sit on different lines. -/
def badReg : Registry :=
  ⟨[⟨1, "A", "Green", 0, 0⟩, ⟨2, "B", "Purple", 10, 0⟩], "Zed"⟩

/-- Fixture driving leg whose distance text is in miles. -/
def mileLeg : Leg := ⟨"10 mins", "5 miles", ⟨0, 0⟩, ⟨0, 0⟩⟩

/-- Fixture route wrapping `mileLeg`. -/
def mileRoute : Route := ⟨[mileLeg], "polyline"⟩

/-- Fixture driving leg for the 5 km scenario. -/
def kmLeg : Leg := ⟨"12 mins", "5 km", ⟨0, 0⟩, ⟨0, 0⟩⟩

/-- Fixture route wrapping `kmLeg`. -/
def kmRoute : Route := ⟨[kmLeg], "polyline"⟩

/-! ## Helper lemmas -/

/-- The produced metro block is never the empty string: it starts with the
fixed header. -/
theorem metroMessage_ne_empty (d : String) (t f : ℤ) : metroMessage d t f ≠ "" := by
  intro h
  have h2 : (metroMessage d t f).length = 0 := by rw [h]; rfl
  unfold metroMessage at h2
  simp only [String.length_append] at h2
  have h3 : 0 < ("🚇 *Metro Option*\n").length := by decide
  omega

/-! ## C1 -/

/-- C1: the claim states that an empty directions result is recovered, with
the unavailable road string substituted, the metro block omitted, and the
composed caption still delivered.  On the code, `get_cab_auto_options`
does return the fixed unavailable string for an empty list, but the main
block then evaluates `directions_result[0]['legs'][0]` unconditionally, so
the whole request falls into the generic-apology handler and no composed
caption is delivered.  This theorem evaluates the code at the failing
input: a well-formed message together with an empty directions result ends
in the apology outcome, not a delivered caption. -/
theorem empty_directions_result_outcome :
    get_cab_auto_options [] = .ok "Could not find driving directions." ∧
    mainFlow "Indiranagar to Whitefield" (fun _ _ => []) mdist (some scenReg) = .apology ∧
    ∀ caption, mainFlow "Indiranagar to Whitefield" (fun _ _ => []) mdist (some scenReg)
      ≠ .delivered caption := by
  refine ⟨rfl, by decide, ?_⟩
  intro caption h
  have h2 : MainResult.apology = MainResult.delivered caption := by
    rw [← h]; decide
  exact MainResult.noConfusion h2

/-! ## C2 -/

/-- C2: `get_metro_options` returns the empty string (a normal "metro not
applicable" result, not an error) exactly when the registry is absent, or
the nearest station to the origin is more than 3 km from the origin, or
the nearest stations to origin and destination have the same name.  The
3 km check applies only to the origin side. -/
theorem metro_empty_iff (hav : ℚ → ℚ → ℚ → ℚ → ℚ) (md : Option Registry)
    (o d : Coord) :
    get_metro_options hav md o d = .ok "" ↔
      md = none ∨
      ∃ r, md = some r ∧
        ((∃ s, nearestStation (fun t => hav o.lat o.lng t.lat t.lon) r.stations
            = some s ∧ hav o.lat o.lng s.lat s.lon > 3) ∨
         (∃ s e, nearestStation (fun t => hav o.lat o.lng t.lat t.lon) r.stations
            = some s ∧
            nearestStation (fun t => hav d.lat d.lng t.lat t.lon) r.stations
            = some e ∧ s.name = e.name)) := by
  cases md with
  | none => simp [get_metro_options]
  | some r =>
    cases hst : r.stations with
    | nil =>
      simp [get_metro_options, nearestStation, hst]
    | cons s0 rest =>
      simp only [get_metro_options, hst, nearestStation, Option.some.injEq,
        reduceCtorEq, false_or, exists_eq_left', exists_and_left, exists_eq_left]
      by_cases hfar : hav o.lat o.lng (pyMin (fun t => hav o.lat o.lng t.lat t.lon) s0 rest).lat
          (pyMin (fun t => hav o.lat o.lng t.lat t.lon) s0 rest).lon > 3
      · simp [hfar]
      · simp only [if_neg hfar]
        by_cases hname : (pyMin (fun t => hav o.lat o.lng t.lat t.lon) s0 rest).name
            = (pyMin (fun t => hav d.lat d.lng t.lat t.lon) s0 rest).name
        · simp [hname, hfar]
        · have hbeq : ((pyMin (fun t => hav o.lat o.lng t.lat t.lon) s0 rest).name
              == (pyMin (fun t => hav d.lat d.lng t.lat t.lon) s0 rest).name) = false := by
            simp [hname]
          simp only [hbeq, Bool.false_eq_true, if_false]
          simp [hfar, hname]
          rcases hrp : routePlan (s0 :: rest) r.interchange
              (pyMin (fun s => hav o.lat o.lng s.lat s.lon) s0 rest)
              (pyMin (fun s => hav d.lat d.lng s.lat s.lon) s0 rest) with e | p
          · simp
          · simp only [Except.ok.injEq]
            exact metroMessage_ne_empty p.2 (metroTime p.1) (metroFare p.1)

/-! ## C3 -/

/-- C3: for every resolved start/end pair with distinct names, the route is
direct (stop count the absolute id difference, description naming only the
two stations) exactly when the lines match or either is `Both`, and
otherwise goes via the interchange station with the summed id differences
and a description naming the interchange.  The concrete scenario (different
lines, interchange id 7, start id 2, end id 12) yields stop count 10, fare
55 and 45 minutes, with the via description. -/
theorem metro_route_modes :
    (∀ (stations : List Station) (ic : String) (s e : Station),
      s.name ≠ e.name →
      ((s.line = e.line ∨ s.line = "Both" ∨ e.line = "Both") →
        routePlan stations ic s e =
          .ok (|s.id - e.id|,
            "from *" ++ s.name ++ "* to *" ++ e.name ++ "*")) ∧
      (¬(s.line = e.line ∨ s.line = "Both" ∨ e.line = "Both") →
        ∀ ist, stations.find? (fun t => t.name == ic) = some ist →
          routePlan stations ic s e =
            .ok (|s.id - ist.id| + |ist.id - e.id|,
              "from *" ++ s.name ++ "* to *" ++ e.name ++ "* (via " ++ ic ++ ")"))) ∧
    routePlan scenReg.stations scenReg.interchange
        ⟨2, "S", "Green", 0, 0⟩ ⟨12, "E", "Purple", 10, 0⟩
      = .ok (10, "from *S* to *E* (via X)") ∧
    metroFare 10 = 55 ∧ metroTime 10 = 45 ∧
    get_metro_options mdist (some scenReg) ⟨0, 0⟩ ⟨10, 0⟩
      = .ok (metroMessage "from *S* to *E* (via X)" 45 55) := by
  refine ⟨?_, by decide, by decide, by decide, ?_⟩
  · intro stations ic s e _hname
    constructor
    · intro hcond
      simp only [routePlan]
      rw [if_pos (by simp only [Bool.or_eq_true, beq_iff_eq]; tauto)]
    · intro hcond ist hfind
      simp only [routePlan]
      rw [if_neg (by simp only [Bool.or_eq_true, beq_iff_eq]; tauto), hfind]
  · norm_num [get_metro_options, scenReg, pyMin, mdist]
    decide

/-! ## C4 -/

/-- C4: for every stop count at least 1, the metro fare is
`min (10 + (n-1)*5) 60`, is monotone in the stop count, saturates at 60
from 11 stops on, and the time estimate is exactly `3n + 15` minutes. -/
theorem metro_fare_time_formulas (n : ℤ) (hn : 1 ≤ n) :
    metroFare n = min (10 + (n - 1) * 5) 60 ∧
    (∀ m : ℤ, n ≤ m → metroFare n ≤ metroFare m) ∧
    (11 ≤ n → metroFare n = 60) ∧
    metroTime n = 3 * n + 15 := by
  refine ⟨rfl, ?_, ?_, ?_⟩
  · intro m hm
    simp only [metroFare]
    omega
  · intro h11
    simp only [metroFare]
    omega
  · simp only [metroTime]
    ring

/-- Witness for C4 at the saturation boundary: stop count 11 against 12. -/
theorem metro_fare_time_formulas_witness :
    metroFare 11 = min (10 + (11 - 1) * 5) 60 ∧ metroFare 11 ≤ metroFare 12 ∧
    metroFare 11 = 60 ∧ metroTime 11 = 3 * 11 + 15 := by
  obtain ⟨h1, h2, h3, h4⟩ := metro_fare_time_formulas 11 (by decide)
  exact ⟨h1, h2 12 (by decide), h3 (by decide), h4⟩

/-! ## C5 -/

/-- C5 counterexample: a registry whose interchange name `Zed` occurs
nowhere among its stations loads without any error, and the fault instead
surfaces as a raised per-request exception inside `get_metro_options`
when a cross-line route needs the interchange — contradicting the claim
that it is detected at registry-load time and never thrown per-request. -/
theorem interchange_missing_cex :
    loadRegistry (some badReg) = some badReg ∧
    get_metro_options mdist (some badReg) ⟨0, 0⟩ ⟨10, 0⟩ = .error () := by
  refine ⟨rfl, ?_⟩
  norm_num [get_metro_options, badReg, pyMin, mdist]
  decide

/-- C5 amended: registry loading performs no validation at all (a missing
interchange name is not detected at load time), and the missing-interchange
fault is raised per-request inside `get_metro_options` whenever the
resolved stations are on distinct lines (neither `Both`), have distinct
names and the origin is within 3 km of its nearest station. -/
theorem interchange_per_request_error :
    (∀ file : Option Registry, loadRegistry file = file) ∧
    (∀ (hav : ℚ → ℚ → ℚ → ℚ → ℚ) (r : Registry) (o d : Coord)
      (s0 : Station) (rest : List Station) (ss es : Station),
      r.stations = s0 :: rest →
      ss = pyMin (fun t => hav o.lat o.lng t.lat t.lon) s0 rest →
      es = pyMin (fun t => hav d.lat d.lng t.lat t.lon) s0 rest →
      hav o.lat o.lng ss.lat ss.lon ≤ 3 →
      ss.name ≠ es.name →
      ¬(ss.line = es.line ∨ ss.line = "Both" ∨ es.line = "Both") →
      r.stations.find? (fun t => t.name == r.interchange) = none →
      get_metro_options hav (some r) o d = .error ()) := by
  refine ⟨fun _ => rfl, ?_⟩
  intro hav r o d s0 rest ss es hst hss hes hclose hname hlines hfind
  subst hss hes
  simp only [get_metro_options, hst]
  rw [if_neg (not_lt.mpr hclose)]
  have hbeq : ((pyMin (fun t => hav o.lat o.lng t.lat t.lon) s0 rest).name
      == (pyMin (fun t => hav d.lat d.lng t.lat t.lon) s0 rest).name) = false := by
    simp [hname]
  rw [if_neg (by simp [hbeq])]
  rw [hst] at hfind
  push_neg at hlines
  obtain ⟨hl1, hl2, hl3⟩ := hlines
  simp only [routePlan, hfind]
  rw [if_neg (by simp [hl1, hl2, hl3])]

/-- Witness for C5's amended statement at the concrete bad registry. -/
theorem interchange_per_request_error_witness :
    loadRegistry (some badReg) = some badReg ∧
    get_metro_options mdist (some badReg) ⟨0, 0⟩ ⟨9, 0⟩ = .error () := by
  refine ⟨interchange_per_request_error.1 (some badReg), ?_⟩
  refine interchange_per_request_error.2 mdist badReg ⟨0, 0⟩ ⟨9, 0⟩
    ⟨1, "A", "Green", 0, 0⟩ [⟨2, "B", "Purple", 10, 0⟩]
    ⟨1, "A", "Green", 0, 0⟩ ⟨2, "B", "Purple", 10, 0⟩
    rfl ?_ ?_ (by norm_num [mdist]) (by decide) (by decide) (by decide)
  · norm_num [pyMin, mdist]
  · norm_num [pyMin, mdist]

/-! ## C6 -/

/-- C6 counterexample: a leg whose distance text is `"5 miles"` (not ending
in `" km"`) does not produce the fixed unavailable road estimate — the
`float()` conversion raises instead, i.e. `get_cab_auto_options` ends in
the exception outcome, refuting the claimed recovery. -/
theorem non_km_distance_cex :
    get_cab_auto_options [mileRoute] = .error () ∧
    get_cab_auto_options [mileRoute] ≠ .ok "Could not find driving directions." := by
  have h : parseFloat? (pyReplace "5 miles" " km" "") = none := by decide
  refine ⟨?_, ?_⟩ <;> simp [get_cab_auto_options, mileRoute, mileLeg, h]

/-- C6 amended: the fixed unavailable string is produced only for an empty
directions result.  A present leg has all `" km"` occurrences removed from
its distance text and the remainder converted with `float()`: if that
conversion fails (as for a non-kilometer unit), the exception propagates
(the top level turns it into the generic apology), and if it succeeds the
normal road estimate is produced from the parsed value. -/
theorem distance_parse_behavior :
    get_cab_auto_options [] = .ok "Could not find driving directions." ∧
    (∀ (r : Route) (tl : List Route) (leg : Leg) (legsTl : List Leg),
      r.legs = leg :: legsTl →
      parseFloat? (pyReplace leg.distance_text " km" "") = none →
      get_cab_auto_options (r :: tl) = .error ()) ∧
    (∀ (r : Route) (tl : List Route) (leg : Leg) (legsTl : List Leg) (v : ℚ),
      r.legs = leg :: legsTl →
      parseFloat? (pyReplace leg.distance_text " km" "") = some v →
      get_cab_auto_options (r :: tl)
        = .ok (cabMessage leg.duration_text leg.distance_text v)) := by
  refine ⟨rfl, ?_, ?_⟩
  · intro r tl leg legsTl hlegs hparse
    simp [get_cab_auto_options, hlegs, hparse]
  · intro r tl leg legsTl v hlegs hparse
    simp [get_cab_auto_options, hlegs, hparse]

/-- Witness for C6's amended statement at the miles fixture. -/
theorem distance_parse_behavior_witness :
    get_cab_auto_options [mileRoute, mileRoute] = .error () :=
  distance_parse_behavior.2.1 mileRoute [mileRoute] mileLeg [] rfl (by decide)

/-! ## C7 -/

/-- C7: for every non-negative distance, the four fare bounds follow the
fixed linear formulas with high bound = low bound + fixed margin, and at
exactly 5 km the auto range is [105, 135] and the cab range is [170, 220];
the composed caption for a 5 km leg carries exactly those four numbers. -/
theorem road_fare_formulas (dist_km : ℚ) (_hd : 0 ≤ dist_km) :
    autoFareLow dist_km = 30 + dist_km * 15 ∧
    autoFareHigh dist_km = autoFareLow dist_km + 30 ∧
    cabFareLow dist_km = 70 + dist_km * 20 ∧
    cabFareHigh dist_km = cabFareLow dist_km + 50 ∧
    autoFareLow 5 = 105 ∧ autoFareHigh 5 = 135 ∧
    cabFareLow 5 = 170 ∧ cabFareHigh 5 = 220 ∧
    get_cab_auto_options [kmRoute] = .ok (cabMessage "12 mins" "5 km" 5) ∧
    cabMessage "12 mins" "5 km" 5 =
      "🚗 *Cab/Auto Estimate*\n   - *Travel Time:* 12 mins\n   - *Distance:* 5 km\n   - *Est. Auto Fare:* ₹105 - ₹135\n   - *Est. Cab Fare:* ₹170 - ₹220\n" := by
  refine ⟨rfl, rfl, rfl, rfl, by norm_num [autoFareLow], by norm_num [autoFareHigh, autoFareLow],
    by norm_num [cabFareLow], by norm_num [cabFareHigh, cabFareLow], ?_, ?_⟩
  · have h : parseFloat? (pyReplace "5 km" " km" "") = some 5 := by decide
    simp [get_cab_auto_options, kmRoute, kmLeg, h]
  · have h1 : autoFareLow 5 = 105 := by norm_num [autoFareLow]
    have h2 : autoFareHigh 5 = 135 := by norm_num [autoFareHigh, autoFareLow]
    have h3 : cabFareLow 5 = 170 := by norm_num [cabFareLow]
    have h4 : cabFareHigh 5 = 220 := by norm_num [cabFareHigh, cabFareLow]
    rw [cabMessage, h1, h2, h3, h4]
    have f1 : fmtF0 105 = "105" := by with_unfolding_all decide
    have f2 : fmtF0 135 = "135" := by with_unfolding_all decide
    have f3 : fmtF0 170 = "170" := by with_unfolding_all decide
    have f4 : fmtF0 220 = "220" := by with_unfolding_all decide
    rw [f1, f2, f3, f4]
    decide

/-- Witness for C7 at distance 5 km. -/
theorem road_fare_formulas_witness :
    autoFareLow 5 = 30 + 5 * 15 ∧ autoFareHigh 5 = autoFareLow 5 + 30 ∧
    cabFareLow 5 = 70 + 5 * 20 ∧ cabFareHigh 5 = cabFareLow 5 + 50 ∧
    get_cab_auto_options [kmRoute] = .ok (cabMessage "12 mins" "5 km" 5) := by
  obtain ⟨h1, h2, h3, h4, _, _, _, _, h5, _⟩ :=
    road_fare_formulas 5 (by norm_num)
  exact ⟨h1, h2, h3, h4, h5⟩

/-! ## C9 -/

/-- C9: whenever the user message does not split into exactly two parts on
the literal separator `" to "` (zero occurrences, or two or more as in
`"A to B to C"`), the main block ends in the usage-format instruction and
never reaches the route lookup. -/
theorem malformed_message_usage (msg : String)
    (directions : String → String → List Route) (hav : ℚ → ℚ → ℚ → ℚ → ℚ)
    (metro_data : Option Registry)
    (h : (pySplit " to " msg).length ≠ 2) :
    mainFlow msg directions hav metro_data = .usage := by
  unfold mainFlow
  rw [if_neg h]

/-- Witness for C9 on the double-separator message `"A to B to C"`. -/
theorem malformed_message_usage_witness :
    pySplit " to " "A to B to C" = ["A", "B", "C"] ∧
    mainFlow "A to B to C" (fun _ _ => []) mdist (some scenReg) = .usage :=
  ⟨by decide,
    malformed_message_usage "A to B to C" (fun _ _ => []) mdist (some scenReg)
      (by decide)⟩

/-! ## C10 -/

/-- C10: the metro estimator never checks the destination's proximity to a
station.  In this fixture the destination is more than 3 km from every
station, while the origin is at distance 0 from its nearest station and the
two resolved stations have different names — and a full metro estimate is
still returned. -/
theorem metro_ignores_destination_distance :
    (∀ s ∈ regFar.stations, mdist 6 0 s.lat s.lon > 3) ∧
    nearestStation (fun t => mdist 0 0 t.lat t.lon) regFar.stations
      = some ⟨1, "A", "L1", 0, 0⟩ ∧
    nearestStation (fun t => mdist 6 0 t.lat t.lon) regFar.stations
      = some ⟨3, "B", "L1", 10, 0⟩ ∧
    mdist 0 0 0 0 ≤ 3 ∧
    get_metro_options mdist (some regFar) ⟨0, 0⟩ ⟨6, 0⟩
      = .ok (metroMessage "from *A* to *B*" 21 15) ∧
    metroMessage "from *A* to *B*" 21 15 ≠ "" := by
  refine ⟨by norm_num [regFar, mdist], ?_, ?_, by norm_num [mdist], ?_,
    metroMessage_ne_empty _ _ _⟩
  · norm_num [nearestStation, regFar, pyMin, mdist]
  · norm_num [nearestStation, regFar, pyMin, mdist]
  · norm_num [get_metro_options, regFar, pyMin, mdist]
    decide

/-! ## C8 -/

/-- Reading back an uppercase hex digit gives the encoded value. -/
theorem hexVal_hexDigit (n : ℕ) (h : n < 16) : hexVal (hexDigit n) = n := by
  by_cases h10 : n < 10
  · rw [hexDigit, if_pos h10, hexVal, if_pos (by omega)]
    omega
  · rw [hexDigit, if_neg h10, hexVal, if_neg (by omega), if_pos (by omega)]
    omega

/-- An emitted hex digit is recognized as one. -/
theorem isHexB_hexDigit (n : ℕ) (h : n < 16) : isHexB (hexDigit n) = true := by
  by_cases h10 : n < 10
  · rw [hexDigit, if_pos h10]
    simp only [isHexB, decide_eq_true_eq]
    omega
  · rw [hexDigit, if_neg h10]
    simp only [isHexB, decide_eq_true_eq]
    omega

/-- Decoding step: an encoded `+` decodes to a space. -/
theorem unquotePlus_plus (t : List ℕ) :
    unquotePlus (43 :: t) = 32 :: unquotePlus t := by
  rcases t with _ | ⟨b1, _ | ⟨b2, t2⟩⟩ <;> simp [unquotePlus]

/-- Decoding step: a byte other than `+` and `%` passes through. -/
theorem unquotePlus_other (b : ℕ) (t : List ℕ) (h43 : b ≠ 43) (h37 : b ≠ 37) :
    unquotePlus (b :: t) = b :: unquotePlus t := by
  rcases t with _ | ⟨b1, _ | ⟨b2, t2⟩⟩ <;> simp [unquotePlus, h43, h37]

/-- Decoding step: a valid percent escape decodes to its byte value. -/
theorem unquotePlus_escape (b1 b2 : ℕ) (t : List ℕ)
    (h1 : isHexB b1 = true) (h2 : isHexB b2 = true) :
    unquotePlus (37 :: b1 :: b2 :: t)
      = (hexVal b1 * 16 + hexVal b2) :: unquotePlus t := by
  simp [unquotePlus, h1, h2]

/-- Decoding undoes the encoding of a single byte below 256, whatever
follows it. -/
theorem unquotePlus_quotePlusByte (b : ℕ) (hb : b < 256) (t : List ℕ) :
    unquotePlus (quotePlusByte b ++ t) = b :: unquotePlus t := by
  rw [quotePlusByte]
  by_cases h32 : b = 32
  · rw [if_pos h32, h32, List.cons_append, List.nil_append, unquotePlus_plus]
  · rw [if_neg h32]
    by_cases hsafe : safeByte b = true
    · rw [if_pos hsafe]
      have hranges := of_decide_eq_true hsafe
      have h43 : b ≠ 43 := by omega
      have h37 : b ≠ 37 := by omega
      rw [List.cons_append, List.nil_append, unquotePlus_other b t h43 h37]
    · rw [if_neg hsafe]
      rw [List.cons_append, List.cons_append, List.cons_append, List.nil_append,
        unquotePlus_escape _ _ t (isHexB_hexDigit (b / 16) (by omega))
          (isHexB_hexDigit (b % 16) (by omega))]
      rw [hexVal_hexDigit (b / 16) (by omega), hexVal_hexDigit (b % 16) (by omega)]
      congr 1
      omega

/-- Percent-decoding undoes `quote_plus` on any byte sequence. -/
theorem unquotePlus_quotePlus (bs : List ℕ) (h : ∀ b ∈ bs, b < 256) :
    unquotePlus (quotePlus bs) = bs := by
  induction bs with
  | nil => simp [quotePlus, unquotePlus]
  | cons b rest ih =>
    rw [quotePlus, List.flatMap_cons, ← quotePlus,
      unquotePlus_quotePlusByte b (h b (by simp)) (quotePlus rest),
      ih (fun x hx => h x (by simp [hx]))]

/-- No `quote_plus` output byte is the separator `&` (38). -/
theorem quotePlusByte_ne_amp (b : ℕ) : ∀ x ∈ quotePlusByte b, x ≠ 38 := by
  intro x hx
  have hhex : ∀ n : ℕ, hexDigit n ≠ 38 := by
    intro n
    rw [hexDigit]
    split <;> omega
  rw [quotePlusByte] at hx
  split at hx
  · simp only [List.mem_singleton] at hx
    omega
  · split at hx
    · simp only [List.mem_singleton] at hx
      subst hx
      rename_i hsafe
      have := of_decide_eq_true hsafe
      omega
    · simp only [List.mem_cons, List.not_mem_nil, or_false] at hx
      rcases hx with h | h | h
      · omega
      · exact h ▸ hhex _
      · exact h ▸ hhex _

/-- No byte of an encoded parameter value is the separator `&`. -/
theorem quotePlus_ne_amp (bs : List ℕ) : ∀ x ∈ quotePlus bs, x ≠ 38 := by
  intro x hx
  rw [quotePlus, List.mem_flatMap] at hx
  obtain ⟨b, _, hxb⟩ := hx
  exact quotePlusByte_ne_amp b x hxb

/-- `takeWhile` stops exactly at the first failing element appended after a
block of satisfying ones. -/
theorem takeWhile_append_block {α : Type} (p : α → Bool) (l : List α)
    (hl : ∀ x ∈ l, p x = true) (a : α) (ha : p a = false) (t : List α) :
    (l ++ a :: t).takeWhile p = l := by
  induction l with
  | nil => simp [List.takeWhile_cons, ha]
  | cons x xs ih =>
    rw [List.cons_append, List.takeWhile_cons_of_pos (hl x (by simp)),
      ih (fun y hy => hl y (by simp [hy]))]

/-- `dropWhile` lands exactly on the first failing element appended after a
block of satisfying ones. -/
theorem dropWhile_append_block {α : Type} (p : α → Bool) (l : List α)
    (hl : ∀ x ∈ l, p x = true) (a : α) (ha : p a = false) (t : List α) :
    (l ++ a :: t).dropWhile p = a :: t := by
  induction l with
  | nil => simp [List.dropWhile_cons, ha]
  | cons x xs ih =>
    rw [List.cons_append, List.dropWhile_cons_of_pos (hl x (by simp)),
      ih (fun y hy => hl y (by simp [hy]))]

/-- C8: percent-decoding the `origin` and `destination` parameter values of
the constructed deep-link URL reproduces the original parsed origin and
destination texts (as UTF-8 byte sequences) exactly. -/
theorem deeplink_roundtrip (o d : List ℕ)
    (ho : ∀ b ∈ o, b < 256) (hd : ∀ b ∈ d, b < 256) :
    unquotePlus (originParam (google_maps_url o d)) = o ∧
    unquotePlus (destParam (google_maps_url o d)) = d := by
  have hkey : destKey = 38 :: strBytes "destination=" := by decide
  have hsplit : google_maps_url o d
      = urlHead ++ (quotePlus o ++ (38 :: (strBytes "destination=" ++ quotePlus d))) := by
    rw [google_maps_url, hkey]
    simp [List.append_assoc]
  have hdrop : (google_maps_url o d).drop urlHead.length
      = quotePlus o ++ (38 :: (strBytes "destination=" ++ quotePlus d)) := by
    rw [hsplit, List.drop_left]
  have hmem : ∀ x ∈ quotePlus o, (x != 38) = true := by
    intro x hx
    simpa using quotePlus_ne_amp o x hx
  constructor
  · rw [originParam, hdrop,
      takeWhile_append_block _ (quotePlus o) hmem 38 (by simp) _,
      unquotePlus_quotePlus o ho]
  · rw [destParam, hdrop,
      dropWhile_append_block _ (quotePlus o) hmem 38 (by simp) _]
    have : (38 :: (strBytes "destination=" ++ quotePlus d))
        = destKey ++ quotePlus d := by
      rw [hkey]
      simp
    rw [this, List.drop_left, unquotePlus_quotePlus d hd]

/-- Witness for C8 on concrete texts (the origin containing a space, which
round-trips through `+`). -/
theorem deeplink_roundtrip_witness :
    unquotePlus (originParam (google_maps_url (strBytes "MG Road") (strBytes "Airport")))
      = strBytes "MG Road" ∧
    unquotePlus (destParam (google_maps_url (strBytes "MG Road") (strBytes "Airport")))
      = strBytes "Airport" :=
  deeplink_roundtrip (strBytes "MG Road") (strBytes "Airport")
    (by decide) (by decide)
